import Mathlib

/-!
Shallow embedding of the collage URL builder (`src/lib/collage.ts`,
function `buildCollageUrl`) of the family-photo-collage-maker repository.

The source is a pure string-building function: given a Cloudinary cloud
name, a list of photo references and a family name, it computes five fixed
slot rectangles on a 1600×900 canvas and serializes photo overlays, a
white caption ribbon, a text overlay and a background identifier into one
URL.  The only impure ingredient of the source, `new Date().getFullYear()`,
is modelled as an explicit `year : Nat` parameter.  JavaScript `Math.floor`
on the (exactly representable) nonnegative quotients that occur here
coincides with `Nat` division, and JavaScript strings are modelled by
Lean `String`.
-/

set_option maxRecDepth 10000

namespace Collage

/-- `type Photo = { publicId: string }` from the source. -/
structure Photo where
  publicId : String
deriving DecidableEq

/-- One slot rectangle of the layout.  Field order:
gravity, x, y, width, height — as in the source's position objects. -/
structure Position where
  gravity : String
  x : Nat
  y : Nat
  width : Nat
  height : Nat
deriving DecidableEq

instance : Inhabited Position := ⟨⟨"", 0, 0, 0, 0⟩⟩

/-! ### Layout constants (source lines 37–71) -/

def canvasWidth : Nat := 1600
def canvasHeight : Nat := 900
/-- Space reserved for text at bottom. -/
def textSpace : Nat := 120
def usableHeight : Nat := canvasHeight - textSpace
/-- Equal margin on all sides. -/
def margin : Nat := 50
/-- Equal gap between images (both horizontal and vertical). -/
def gap : Nat := 40
def availableWidth : Nat := canvasWidth - 2 * margin - 2 * gap
/-- `Math.floor(availableWidth / 3)`. -/
def columnWidth : Nat := availableWidth / 3
def availableHeight : Nat := usableHeight - 2 * margin - gap
/-- `Math.floor(availableHeight * 2 / 3)`. -/
def row1Height : Nat := availableHeight * 2 / 3
def row2Height : Nat := availableHeight - row1Height
def col1Height : Nat := row1Height + gap + row2Height
def col2TopHeight : Nat := row1Height
def col2BottomHeight : Nat := row2Height
def col3TopHeight : Nat := row2Height
def col3BottomHeight : Nat := row1Height

/-! ### The five slot positions (source lines 73–125).
Anonymous-constructor fields are gravity, x, y, width, height. -/

/-- Position 1: column 1, spans both rows. -/
def position1 : Position :=
  ⟨"g_north_west", margin, margin, columnWidth, col1Height⟩

/-- Position 2: column 2, top. -/
def position2 : Position :=
  ⟨"g_north_west", margin + columnWidth + gap, margin, columnWidth, col2TopHeight⟩

/-- Position 3: column 2, bottom. -/
def position3 : Position :=
  ⟨"g_north_west", margin + columnWidth + gap, margin + row1Height + gap,
    columnWidth, col2BottomHeight⟩

/-- Position 4: column 3, top. -/
def position4 : Position :=
  ⟨"g_north_west", margin + (columnWidth + gap) * 2, margin, columnWidth, col3TopHeight⟩

/-- Position 5: column 3, bottom.  Source: `y: margin + row2Height + gap`. -/
def position5 : Position :=
  ⟨"g_north_west", margin + (columnWidth + gap) * 2, margin + row2Height + gap,
    columnWidth, col3BottomHeight⟩

def photoPositions : List Position :=
  [position1, position2, position3, position4, position5]

/-! ### Photo overlays (source lines 127–153) -/

def cornerRadius : Nat := 25
def borderWidth : Nat := 8
def goldColor : String := "rgb:FFD700"

/-- The positioning parameter list built before `fl_layer_apply`:
gravity, then `x_<x>` only when `x > 0`, then `y_<y>`. -/
def positionParams (position : Position) : List String :=
  [position.gravity]
    ++ (if position.x > 0 then ["x_" ++ toString position.x] else [])
    ++ ["y_" ++ toString position.y]

/-- `replace(/\//g, ':')` of the source: every slash character becomes a
colon.  For the one-character pattern this global replace is exactly the
character-wise map. -/
def replaceSlashes (s : String) : String :=
  ⟨s.data.map fun c => if c = '/' then ':' else c⟩

/-- One photo overlay segment:
`l_<id>/<crop>/<radius,border>/fl_layer_apply,<position>` with slashes of
the publicId replaced by colons. -/
def overlayFor (photo : Photo) (position : Position) : String :=
  "l_" ++ replaceSlashes photo.publicId
    ++ "/c_fill,w_" ++ toString position.width ++ ",h_" ++ toString position.height
    ++ "/r_" ++ toString cornerRadius
    ++ ",bo_" ++ toString borderWidth ++ "px_solid_" ++ goldColor
    ++ "/fl_layer_apply," ++ String.intercalate "," (positionParams position)

/-- The source's `forEach` over `photosToUse` indexing `photoPositions[index]`;
with exactly five photos this is the positional pairing, modelled by `zip`. -/
def photoOverlays (photos : List Photo) : List String :=
  (photos.zip photoPositions).map fun pp => overlayFor pp.1 pp.2

/-! ### White ribbon (source lines 155–180) -/

def ribbonHeight : Nat := 100
def ribbonBottomMargin : Nat := 20
def ribbonOpacity : Nat := 70
def ribbonYFromBottom : Nat := ribbonBottomMargin
def whitePixelPublicId : String := "holiday-assets/white-pixel"
def whitePixelOverlayId : String := replaceSlashes whitePixelPublicId

def whiteRibbon : String :=
  "l_" ++ whitePixelOverlayId
    ++ "/c_fill,w_" ++ toString canvasWidth ++ ",h_" ++ toString ribbonHeight
    ++ "/o_" ++ toString ribbonOpacity
    ++ "/fl_layer_apply,g_south,y_" ++ toString ribbonYFromBottom

/-! ### Text overlay (source lines 182–196).
JavaScript `encodeURIComponent` percent-encodes the UTF-8 bytes of every
character except ASCII alphanumerics and `- _ . ! ~ * ' ( )`, with
uppercase hex digits. -/

def utf8Bytes (n : Nat) : List Nat :=
  if n < 0x80 then [n]
  else if n < 0x800 then [0xC0 + n / 64, 0x80 + n % 64]
  else if n < 0x10000 then [0xE0 + n / 4096, 0x80 + n / 64 % 64, 0x80 + n % 64]
  else [0xF0 + n / 262144, 0x80 + n / 4096 % 64, 0x80 + n / 64 % 64, 0x80 + n % 64]

def hexDigit (n : Nat) : Char :=
  if n < 10 then Char.ofNat (48 + n) else Char.ofNat (55 + n)

def percentByte (b : Nat) : String :=
  "%" ++ String.singleton (hexDigit (b / 16)) ++ String.singleton (hexDigit (b % 16))

/-- Characters `encodeURIComponent` leaves unescaped besides alphanumerics:
`- _ . ! ~ * ' ( )` (the apostrophe written via its code point). -/
def extraUnreserved : List Char :=
  ['-', '_', '.', '!', '~', '*', Char.ofNat 39, '(', ')']

def isUnreservedChar (c : Char) : Bool :=
  c.isAlphanum || extraUnreserved.contains c

def encodeChar (c : Char) : String :=
  if isUnreservedChar c then String.singleton c
  else String.join ((utf8Bytes c.toNat).map percentByte)

def encodeURIComponent (s : String) : String :=
  String.join (s.data.map encodeChar)

/-- The source line 185 reads, byte for byte,
`` `${familyName} â€“ Holiday ${currentYear}` ``: the separator between the
family name and the word `Holiday` is the three characters U+00E2 U+20AC
U+201C (the UTF-8 bytes of an en dash re-decoded as cp1252), not an
en dash. -/
def textContent (familyName : String) (year : Nat) : String :=
  familyName ++ " â€“ Holiday " ++ toString year

/-- `textYFromBottom = ribbonBottomMargin`; `Math.round` of this integer
is the identity. -/
def textYFromBottom : Nat := ribbonBottomMargin

def textOverlay (familyName : String) (year : Nat) : String :=
  "l_text:Pacifico_70:" ++ encodeURIComponent (textContent familyName year)
    ++ ",co_rgb:000000/fl_layer_apply,g_south,y_" ++ toString textYFromBottom

/-! ### Assembly (source lines 198–221) -/

def backgroundId : String := "holiday-assets/collage-bg"
def baseTransform : String := "w_1600,h_900,c_fill,q_auto,f_auto"

def segments (photos : List Photo) (familyName : String) (year : Nat) : List String :=
  [baseTransform] ++ photoOverlays photos ++ [whiteRibbon, textOverlay familyName year, backgroundId]

/-- `buildCollageUrl(cloudName, photos, familyName)`, with the current
system year made an explicit parameter.  `!cloudName` on a string is true
exactly for the empty string. -/
def buildCollageUrl (cloudName : String) (photos : List Photo)
    (familyName : String) (year : Nat) : String :=
  if cloudName = "" then ""
  else if photos.length ≠ 5 then ""
  else
    "https://res.cloudinary.com/" ++ cloudName ++ "/image/upload" ++ "/"
      ++ String.intercalate "/" (segments photos familyName year)

/-- Whether two slot rectangles have a common interior point. -/
def overlapping (p q : Position) : Prop :=
  p.x < q.x + q.width ∧ q.x < p.x + p.width ∧ p.y < q.y + q.height ∧ q.y < p.y + p.height

instance (p q : Position) : Decidable (overlapping p q) := by
  unfold overlapping; infer_instance

/-- Number of character positions of `s` at which `pat` starts. -/
def countOcc (pat : List Char) : List Char → Nat
  | [] => 0
  | c :: rest =>
    (if pat.isPrefixOf (c :: rest) then 1 else 0) + countOcc pat rest

/-- The five-photo list of the spec's worked example. -/
def demoPhotos : List Photo := [⟨"a/b"⟩, ⟨"c"⟩, ⟨"d/e/f"⟩, ⟨"g"⟩, ⟨"h"⟩]

/-! ### Helper lemmas -/

theorem str_ext (s t : String) (h : s.data = t.data) : s = t := by
  cases s; cases t; exact congrArg String.mk h

theorem str_data_append (s t : String) : (s ++ t).data = s.data ++ t.data := rfl

theorem str_append_assoc (a b c : String) : a ++ b ++ c = a ++ (b ++ c) := by
  apply str_ext
  simp only [str_data_append, List.append_assoc]

theorem infix_append_right (s t : String) (pat : List Char)
    (h : pat <:+: t.data) : pat <:+: (s ++ t).data := by
  obtain ⟨u, v, huv⟩ := h
  exact ⟨s.data ++ u, v, by rw [str_data_append, ← huv]; simp [List.append_assoc]⟩

theorem suffix_append_right (s t : String) (pat : List Char)
    (h : pat <:+ t.data) : pat <:+ (s ++ t).data := by
  obtain ⟨u, hu⟩ := h
  exact ⟨s.data ++ u, by rw [str_data_append, ← hu, List.append_assoc]⟩

theorem eq_five_of_length (photos : List Photo) (h : photos.length = 5) :
    ∃ a b c d e, photos = [a, b, c, d, e] := by
  match photos with
  | [a, b, c, d, e] => exact ⟨a, b, c, d, e, rfl⟩
  | [] | [_] | [_, _] | [_, _, _] | [_, _, _, _] => simp at h
  | _ :: _ :: _ :: _ :: _ :: _ :: _ => simp at h

theorem photoOverlays_five (a b c d e : Photo) :
    photoOverlays [a, b, c, d, e] =
      [overlayFor a position1, overlayFor b position2, overlayFor c position3,
       overlayFor d position4, overlayFor e position5] := rfl

theorem str_length_append (s t : String) : (s ++ t).length = s.length + t.length := by
  show (s.data ++ t.data).length = s.data.length + t.data.length
  exact List.length_append _ _

theorem str_append_ne_empty (s t : String) (h : s.length ≠ 0) : s ++ t ≠ "" := by
  intro he
  have hl := congrArg String.length he
  rw [str_length_append] at hl
  have h0 : String.length "" = 0 := rfl
  rw [h0] at hl
  omega

/-! ### Claim theorems -/

/-- C1: `buildCollageUrl` returns the empty string if and only if the cloud
name is empty or the photo list does not have exactly 5 elements; for all
other inputs the result is a non-empty URL (and, being a total Lean
function, the embedding never throws). -/
theorem buildCollageUrl_empty_iff (cloudName : String) (photos : List Photo)
    (familyName : String) (year : Nat) :
    buildCollageUrl cloudName photos familyName year = "" ↔
      cloudName = "" ∨ photos.length ≠ 5 := by
  unfold buildCollageUrl
  by_cases hc : cloudName = ""
  · simp [hc]
  · by_cases hp : photos.length = 5
    · rw [if_neg hc, if_neg (by simp [hp])]
      constructor
      · intro h
        refine absurd h (str_append_ne_empty _ _ ?_)
        rw [str_length_append, str_length_append, str_length_append]
        have h1 : ("https://res.cloudinary.com/").length = 27 := rfl
        omega
      · intro h
        rcases h with h | h
        · exact absurd h hc
        · exact absurd hp h
    · rw [if_neg hc, if_pos hp]
      simp [hp]

/-- C2 counterexample: the fifth slot (column 3, bottom) does not have
y offset `margin + row1Height + gap`; its y offset accumulates the height
of column 3's top cell, which is `row2Height`. -/
theorem slot5_y_offset_counterexample :
    ¬ ((photoPositions.getD 4 default).y = margin + row1Height + gap) := by
  decide

/-- C2 amended: each slot's x offset is margin plus prior column widths and
prior gaps; the y offset is margin for top-row slots, and margin plus the
height of the column's top cell plus gap for bottom-row slots — that top
cell is `row1Height` tall in column 2 but `row2Height` tall in column 3. -/
theorem photoPositions_offsets :
    (photoPositions.getD 0 default).x = margin ∧
    (photoPositions.getD 0 default).y = margin ∧
    (photoPositions.getD 1 default).x = margin + columnWidth + gap ∧
    (photoPositions.getD 1 default).y = margin ∧
    (photoPositions.getD 2 default).x = margin + columnWidth + gap ∧
    (photoPositions.getD 2 default).y = margin + row1Height + gap ∧
    (photoPositions.getD 3 default).x = margin + 2 * columnWidth + 2 * gap ∧
    (photoPositions.getD 3 default).y = margin ∧
    (photoPositions.getD 4 default).x = margin + 2 * columnWidth + 2 * gap ∧
    (photoPositions.getD 4 default).y = margin + row2Height + gap := by
  decide

/-- C6: the five slot rectangles share one column width
`(1600 − 2·50 − 2·40)/3`; the two row heights split `availableHeight`
with the floor going to row 1 and row 2 absorbing the remainder; column 1's
full span equals `row1 + gap + row2 = usable − 2·margin`; and columns 2 and
3 have the same total height with reversed proportions. -/
theorem layout_arithmetic :
    (∀ i : Fin 5, (photoPositions.getD i.val default).width = (1600 - 2 * 50 - 2 * 40) / 3) ∧
    availableHeight = (900 - 120) - 2 * 50 - 40 ∧
    row1Height = availableHeight * 2 / 3 ∧
    row2Height = availableHeight - row1Height ∧
    row1Height + 40 + row2Height = usableHeight - 2 * margin ∧
    (photoPositions.getD 0 default).height = usableHeight - 2 * margin ∧
    col2TopHeight + col2BottomHeight = availableHeight ∧
    col3TopHeight + col3BottomHeight = availableHeight ∧
    col2TopHeight + col2BottomHeight = col3TopHeight + col3BottomHeight ∧
    col3TopHeight = col2BottomHeight ∧ col3BottomHeight = col2TopHeight := by
  decide

/-- C9: every slot lies inside the margin-inset usable area of the canvas,
and no two slot rectangles overlap. -/
theorem slots_disjoint_and_inside :
    (∀ i : Fin 5,
      50 ≤ (photoPositions.getD i.val default).x ∧
      50 ≤ (photoPositions.getD i.val default).y ∧
      (photoPositions.getD i.val default).x + (photoPositions.getD i.val default).width
        ≤ 1600 - 50 ∧
      (photoPositions.getD i.val default).y + (photoPositions.getD i.val default).height
        ≤ (900 - 120) - 50) ∧
    photoPositions.Pairwise fun p q => ¬ overlapping p q := by
  decide

/-- C10: every slot's x offset is positive (it is at least the margin), so
the branch omitting the `x_` token is never taken: the positioning
parameters always list gravity, `x_<x>` and `y_<y>`, and each photo
overlay segment contains the `x_<x>` token. -/
theorem overlays_always_have_x_token (photo : Photo) (i : Fin 5) :
    0 < (photoPositions.getD i.val default).x ∧
    positionParams (photoPositions.getD i.val default) =
      [(photoPositions.getD i.val default).gravity,
       "x_" ++ toString (photoPositions.getD i.val default).x,
       "y_" ++ toString (photoPositions.getD i.val default).y] ∧
    ("x_" ++ toString (photoPositions.getD i.val default).x).data <:+:
      (overlayFor photo (photoPositions.getD i.val default)).data := by
  fin_cases i <;>
    exact ⟨by decide, by decide,
      by simp only [overlayFor]; exact infix_append_right _ _ _ (by decide)⟩

theorem textOverlay_split (familyName : String) (year : Nat) :
    textOverlay familyName year =
      "l_text:Pacifico_70:" ++ encodeURIComponent (textContent familyName year)
        ++ ",co_rgb:000000/fl_layer_apply,g_south,y_20" := by
  show "l_text:Pacifico_70:" ++ encodeURIComponent (textContent familyName year)
      ++ ",co_rgb:000000/fl_layer_apply,g_south,y_" ++ toString textYFromBottom = _
  rw [str_append_assoc]
  congr 1

/-- C3: the claim fails on the code.  At the failing input the text
overlay does not contain the percent-encoding of
`"Smith – Holiday 2025"` (en dash U+2013, which encodes to `%E2%80%93`):
source line 185 hard-codes the mojibake characters U+00E2 U+20AC U+201C
(the UTF-8 bytes of an en dash re-decoded as cp1252), whose encoding
`%C3%A2%E2%82%AC%E2%80%9C` is what the segment actually contains. -/
theorem textOverlay_mojibake :
    textContent "Smith" 2025 = "Smith â€“ Holiday 2025" ∧
    ¬ ((encodeURIComponent "Smith – Holiday 2025").data <:+:
        (textOverlay "Smith" 2025).data) ∧
    ¬ ("%E2%80%93".data <:+: (textOverlay "Smith" 2025).data) ∧
    "%C3%A2%E2%82%AC%E2%80%9C".data <:+: (textOverlay "Smith" 2025).data :=
  ⟨rfl, by decide, by decide, by decide⟩

/-- C4: for a non-empty cloud name and exactly five photos, the returned
URL is the Cloudinary base for that account followed by the segments
joined with `/` in the fixed order: base transform, the five photo
overlays in slot order — photo i paired positionally with slot i, caller
order preserved — then the ribbon, the text overlay, and the background
identifier last. -/
theorem buildCollageUrl_segment_order (cloudName : String) (photos : List Photo)
    (familyName : String) (year : Nat)
    (hc : cloudName ≠ "") (hp : photos.length = 5) :
    buildCollageUrl cloudName photos familyName year =
      "https://res.cloudinary.com/" ++ cloudName ++ "/image/upload" ++ "/"
        ++ String.intercalate "/"
            ([baseTransform] ++ photoOverlays photos
              ++ [whiteRibbon, textOverlay familyName year, backgroundId]) ∧
    (photoOverlays photos).length = 5 ∧
    ∀ i : Fin 5,
      (photoOverlays photos).getD i.val "" =
        overlayFor (photos.getD i.val ⟨""⟩) (photoPositions.getD i.val default) := by
  obtain ⟨a, b, c, d, e, rfl⟩ := eq_five_of_length photos hp
  refine ⟨?_, ?_, ?_⟩
  · unfold buildCollageUrl
    rw [if_neg hc, if_neg (by simp)]
    rfl
  · rfl
  · intro i
    fin_cases i <;> rfl

theorem buildCollageUrl_segment_order_witness :
    buildCollageUrl "demo" demoPhotos "Smith" 2025 =
      "https://res.cloudinary.com/" ++ "demo" ++ "/image/upload" ++ "/"
        ++ String.intercalate "/"
            ([baseTransform] ++ photoOverlays demoPhotos
              ++ [whiteRibbon, textOverlay "Smith" 2025, backgroundId]) ∧
    (photoOverlays demoPhotos).length = 5 ∧
    (photoOverlays demoPhotos).getD 0 "" =
      overlayFor (demoPhotos.getD 0 ⟨""⟩) (photoPositions.getD 0 default) :=
  ⟨(buildCollageUrl_segment_order "demo" demoPhotos "Smith" 2025 (by decide) (by decide)).1,
   (buildCollageUrl_segment_order "demo" demoPhotos "Smith" 2025 (by decide) (by decide)).2.1,
   (buildCollageUrl_segment_order "demo" demoPhotos "Smith" 2025 (by decide) (by decide)).2.2 0⟩

/-- C5: with exactly five photos, overlay segment i is
`l_<publicId with slashes replaced by colons>`, crop `c_fill` at slot i's
exact width and height, `r_25` with `bo_8px_solid_rgb:FFD700`, and one
`fl_layer_apply` token; on the spec's worked example each of the five
photo overlays contains exactly one `fl_layer_apply` occurrence — five in
total, ribbon and text excluded — and the first overlay's source token
reads `l_a:b`. -/
theorem photoOverlays_encoding (photos : List Photo) (hp : photos.length = 5) :
    (∀ i : Fin 5,
      (photoOverlays photos).getD i.val "" =
        "l_" ++ replaceSlashes (photos.getD i.val ⟨""⟩).publicId
          ++ "/c_fill,w_" ++ toString (photoPositions.getD i.val default).width
          ++ ",h_" ++ toString (photoPositions.getD i.val default).height
          ++ "/r_25,bo_8px_solid_rgb:FFD700/fl_layer_apply,"
          ++ String.intercalate "," (positionParams (photoPositions.getD i.val default))) ∧
    (∀ s ∈ photoOverlays demoPhotos, countOcc "fl_layer_apply".data s.data = 1) ∧
    countOcc "fl_layer_apply".data
      (String.intercalate "/" (photoOverlays demoPhotos)).data = 5 ∧
    "l_a:b/".data <+: ((photoOverlays demoPhotos).getD 0 "").data := by
  obtain ⟨a, b, c, d, e, rfl⟩ := eq_five_of_length photos hp
  refine ⟨?_, by decide, by decide, by decide⟩
  intro i
  fin_cases i <;>
    · simp only [photoOverlays_five, photoPositions,
        List.getD_cons_zero, List.getD_cons_succ]
      apply str_ext
      simp only [overlayFor, str_data_append, List.append_assoc]
      congr 1

theorem photoOverlays_encoding_witness :
    (photoOverlays demoPhotos).getD 0 "" =
      "l_" ++ replaceSlashes (demoPhotos.getD 0 ⟨""⟩).publicId
        ++ "/c_fill,w_" ++ toString (photoPositions.getD 0 default).width
        ++ ",h_" ++ toString (photoPositions.getD 0 default).height
        ++ "/r_25,bo_8px_solid_rgb:FFD700/fl_layer_apply,"
        ++ String.intercalate "," (positionParams (photoPositions.getD 0 default)) ∧
    countOcc "fl_layer_apply".data
      (String.intercalate "/" (photoOverlays demoPhotos)).data = 5 ∧
    "l_a:b/".data <+: ((photoOverlays demoPhotos).getD 0 "").data :=
  ⟨(photoOverlays_encoding demoPhotos (by decide)).1 0,
   (photoOverlays_encoding demoPhotos (by decide)).2.2.1,
   (photoOverlays_encoding demoPhotos (by decide)).2.2.2⟩

/-- C7: the ribbon segment overlays the white-pixel image with `c_fill` at
the full canvas width 1600 and height 100, opacity `o_70`, gravity
`g_south` and offset `y_20`; the text segment carries the same
`g_south,y_20` anchoring. -/
theorem ribbon_and_text_anchor :
    whiteRibbon =
      "l_holiday-assets:white-pixel/c_fill,w_1600,h_100/o_70/fl_layer_apply,g_south,y_20" ∧
    (∀ (familyName : String) (year : Nat),
      textOverlay familyName year =
        "l_text:Pacifico_70:" ++ encodeURIComponent (textContent familyName year)
          ++ ",co_rgb:000000/fl_layer_apply,g_south,y_20") ∧
    "fl_layer_apply,g_south,y_20".data <:+ whiteRibbon.data ∧
    ∀ (familyName : String) (year : Nat),
      "fl_layer_apply,g_south,y_20".data <:+ (textOverlay familyName year).data := by
  refine ⟨rfl, textOverlay_split, by decide, ?_⟩
  intro familyName year
  rw [textOverlay_split]
  exact suffix_append_right _ _ _ (by decide)

/-- C8: with the clock year an explicit input, `buildCollageUrl` is
deterministic — two calls with identical cloud name, photos and family
name whose clock readings yield the same calendar year return identical
strings. -/
theorem buildCollageUrl_deterministic (cloudName : String) (photos : List Photo)
    (familyName : String) (year1 year2 : Nat) (h : year1 = year2) :
    buildCollageUrl cloudName photos familyName year1 =
      buildCollageUrl cloudName photos familyName year2 := by
  rw [h]

theorem buildCollageUrl_deterministic_witness :
    buildCollageUrl "demo" demoPhotos "Smith" 2025 =
      buildCollageUrl "demo" demoPhotos "Smith" 2025 :=
  buildCollageUrl_deterministic "demo" demoPhotos "Smith" 2025 2025 rfl

end Collage
